import Mathlib

/-!
Verification of the geo-intel-dashboard POI aggregation, caching and scoring
pipeline.  The TypeScript sources are embedded shallowly:

* numbers are embedded as `ℚ` (the JS code only adds, multiplies, divides and
  compares; transcendental helpers — `Math.log1p`, the trigonometry inside the
  haversine predicate — are kept as explicit function parameters, so every
  theorem quantifies over them);
* timestamps (`Date.now()`) are `ℕ` milliseconds, passed explicitly;
* the two JS `Map`s (memory cache, in-flight registry) are association lists
  in insertion order, matching JS `Map` iteration order;
* network effects are state passing: a provider is a function from the request
  to an outcome, and a session state records the caches and the number of
  provider requests issued.
-/

namespace Geo

set_option linter.unusedVariables false

/-- JS `Math.max(0, Math.min(100, v))` (the `clamp` helper of both scorers). -/
def clamp (v : ℚ) : ℚ := max 0 (min 100 v)

/-- JS `Math.round`: round half up. -/
def jsRound (q : ℚ) : ℤ := ⌊q + 1/2⌋

/-- Source `parseFloat(x.toFixed(1))` for non-negative inputs: round to one decimal. -/
def round1 (q : ℚ) : ℚ := (⌊q * 10 + 1/2⌋ : ℚ) / 10

/-- JS `opt?.text || "Unknown"` : `undefined` and the empty string both fall
back to the default. -/
def jsOrString (o : Option String) (dflt : String) : String :=
  match o with
  | none => dflt
  | some s => if s = "" then dflt else s

/-- Source `str.includes(sub)` for a non-empty literal `sub`. -/
def containsSubstr (s sub : String) : Bool := (s.splitOn sub).length > 1

-- ── Data model (src/services/placesAPIService.ts) ───────────────────────────

/-- Source `PlaceResult`: the normalized POI record produced by `mapPlace`. -/
structure PlaceResult where
  id : String
  displayName : String
  lat : ℚ
  lng : ℚ
  rating : Option ℚ
  userRatingCount : Option ℕ
  priceLevel : Option String
  types : List String
  formattedAddress : Option String
  businessStatus : Option String
  deriving DecidableEq, Repr

/-- A raw provider place record, before normalization.  Optional fields model
fields the provider may omit (`place.location?`, `place.displayName?.text`). -/
structure RawPlace where
  id : String
  displayName : Option String
  location : Option (ℚ × ℚ)
  rating : Option ℚ
  userRatingCount : Option ℕ
  priceLevel : Option String
  types : Option (List String)
  formattedAddress : Option String
  businessStatus : Option String
  deriving DecidableEq, Repr

/-- Outcome of one `fetch` to the provider: a parsed success body, a non-2xx
HTTP status, or a thrown network error. -/
inductive FetchOutcome where
  | ok (places : List RawPlace)
  | httpError (status : ℕ)
  | netError
  deriving DecidableEq, Repr

inductive CompetitionLevel where
  | LOW | MEDIUM | HIGH | VERY_HIGH
  deriving DecidableEq, Repr

inductive MarketGap where
  | SATURATED | COMPETITIVE | OPPORTUNITY | UNTAPPED
  deriving DecidableEq, Repr

/-- Source `mapPlace` (placesAPIService.ts:569): normalize a raw provider record,
defaulting a missing location to (0,0) and a missing display name to
`"Unknown"`. -/
def mapPlace (p : RawPlace) : PlaceResult :=
  { id := p.id
    displayName := jsOrString p.displayName "Unknown"
    lat := (p.location.map Prod.fst).getD 0
    lng := (p.location.map Prod.snd).getD 0
    rating := p.rating
    userRatingCount := p.userRatingCount
    priceLevel := p.priceLevel
    types := p.types.getD []
    formattedAddress := p.formattedAddress
    businessStatus := p.businessStatus }

/-- Source `textSearch` maps raw records without the `businessStatus` field
(the field is absent from the field mask and mapping of that function). -/
def mapPlaceText (p : RawPlace) : PlaceResult :=
  { mapPlace p with businessStatus := none }

-- ── Fetch layer (src/services/placesAPIService.ts, multi-zone variant) ──────

/-- A JS `try { … } catch { … }`: the body either returns or throws. -/
def tryCatch {α : Type} (body : Except String α) (handler : String → α) : α :=
  match body with
  | .ok a => a
  | .error e => handler e

/-- The body of the `try` block of `fetchZone`: a network failure throws, a non-ok
HTTP response logs and returns `[]`, a success maps the places. -/
def fetchZoneBody (o : FetchOutcome) : Except String (List PlaceResult) :=
  match o with
  | .netError => .error "fetch failed"
  | .httpError status => .ok []
  | .ok raws => .ok (raws.map mapPlace)

/-- Source `fetchZone` (placesAPIService.ts:584): the catch block degrades any thrown
error to an empty list. -/
def fetchZone (o : FetchOutcome) : List PlaceResult :=
  tryCatch (fetchZoneBody o) (fun _ => [])

/-- The parameters of one provider request issued by `fetchZone`. -/
structure ZoneQuery where
  lat : ℚ
  lng : ℚ
  radius : ℚ
  types : List String
  primaryOnly : Bool
  deriving DecidableEq

/-- The five search zones: center plus four quadrant offsets at reduced
radius (placesAPIService.ts:619-629). -/
def zonesFor (lat lng radiusMeters : ℚ) : List (ℚ × ℚ × ℚ) :=
  let offset := radiusMeters * 0.0000055
  let subRadius := radiusMeters * 0.7
  [(lat, lng, radiusMeters),
   (lat + offset, lng + offset, subRadius),
   (lat + offset, lng - offset, subRadius),
   (lat - offset, lng + offset, subRadius),
   (lat - offset, lng - offset, subRadius)]

/-- The dedup-and-filter loop over the zone results
(placesAPIService.ts:644-654).  `withinR` is the `withinRadius` closure: its
trigonometry is transcendental, so it is kept as a function parameter. -/
def mergeFilter (withinR : ℚ → ℚ → Bool) (zoneResults : List (List PlaceResult)) :
    List PlaceResult :=
  (zoneResults.foldl (fun st results =>
    results.foldl (fun st place =>
      if !st.1.contains place.id && withinR place.lat place.lng
      then (place.id :: st.1, st.2 ++ [place])
      else st) st) (([] : List String), ([] : List PlaceResult))).2

/-- Source `nearbySearch` (placesAPIService.ts:554-658), as a pure function of the
responses of the provider: query all five zones, then deduplicate by id and
re-validate against the true radius. -/
def nearbySearch (withinR : ℚ → ℚ → Bool) (provider : ZoneQuery → FetchOutcome)
    (lat lng radiusMeters : ℚ) (placeTypes : List String) (primaryOnly : Bool) :
    List PlaceResult :=
  let zoneResults := (zonesFor lat lng radiusMeters).map
    (fun z => fetchZone (provider ⟨z.1, z.2.1, z.2.2, placeTypes, primaryOnly⟩))
  mergeFilter withinR zoneResults

/-- Source `nearbySearch` as an `Except` computation: `.error` would mean an
exception escaping the function. -/
def nearbySearchE (withinR : ℚ → ℚ → Bool) (provider : ZoneQuery → FetchOutcome)
    (lat lng radiusMeters : ℚ) (placeTypes : List String) (primaryOnly : Bool) :
    Except String (List PlaceResult) := do
  let zoneResults ← (zonesFor lat lng radiusMeters).mapM
    (fun z => .ok (fetchZone (provider ⟨z.1, z.2.1, z.2.2, placeTypes, primaryOnly⟩)))
  pure (mergeFilter withinR zoneResults)

/-- The body of the `try` block of `textSearch`: a non-ok response throws
(`throw new Error(...)`), unlike `fetchZone` which returns `[]`. -/
def textSearchBody (o : FetchOutcome) : Except String (List PlaceResult) :=
  match o with
  | .netError => .error "fetch failed"
  | .httpError status => .error "Text search error"
  | .ok raws => .ok (raws.map mapPlaceText)

/-- Source `textSearch` (placesAPIService.ts:665-724): the catch block degrades any
thrown error (network or non-ok status) to an empty list. -/
def textSearch (o : FetchOutcome) : List PlaceResult :=
  tryCatch (textSearchBody o) (fun _ => [])

/-- Source `textSearch` as an `Except` computation. -/
def textSearchE (o : FetchOutcome) : Except String (List PlaceResult) :=
  match textSearchBody o with
  | .ok l => .ok l
  | .error _ => .ok []

-- ── Aggregation core (getLocationIntelligence, placesAPIService.ts:854) ─────

structure GymsIntel where
  total : ℕ
  highRated : ℕ
  averageRating : ℚ
  premiumCount : ℕ
  budgetCount : ℕ
  places : List PlaceResult
  deriving DecidableEq, Repr

structure CategoryIntel where
  total : ℕ
  places : List PlaceResult
  deriving DecidableEq, Repr

structure CafesIntel where
  total : ℕ
  healthFocused : ℕ
  places : List PlaceResult
  deriving DecidableEq, Repr

structure VibeIntel where
  total : ℕ
  active : ℕ
  entertainment : ℕ
  places : List PlaceResult
  deriving DecidableEq, Repr

structure LocationIntelligence where
  gyms : GymsIntel
  corporateOffices : CategoryIntel
  cafesRestaurants : CafesIntel
  transitStations : CategoryIntel
  apartments : CategoryIntel
  vibe : VibeIntel
  competitionLevel : CompetitionLevel
  marketGap : MarketGap
  deriving DecidableEq, Repr

/-- JS truthiness of `g.rating` (a `0` rating is falsy). -/
def ratingTruthy (g : PlaceResult) : Bool :=
  match g.rating with
  | none => false
  | some r => decide (r ≠ 0)

/-- Source `g.rating && g.rating >= 4.0`. -/
def highRatedFilter (g : PlaceResult) : Bool :=
  match g.rating with
  | none => false
  | some r => decide (r ≠ 0) && decide (4 ≤ r)

def premiumFilter (g : PlaceResult) : Bool :=
  decide (g.priceLevel = some "PRICE_LEVEL_EXPENSIVE") ||
  decide (g.priceLevel = some "PRICE_LEVEL_VERY_EXPENSIVE")

def budgetFilter (g : PlaceResult) : Bool :=
  decide (g.priceLevel = some "PRICE_LEVEL_INEXPENSIVE") ||
  decide (g.priceLevel = some "PRICE_LEVEL_FREE")

/-- Health-focused cafes: rated ≥ 4 and a health-signal name substring. -/
def healthFilter (c : PlaceResult) : Bool :=
  highRatedFilter c &&
  (containsSubstr c.displayName.toLower "health" ||
   containsSubstr c.displayName.toLower "juice" ||
   containsSubstr c.displayName.toLower "salad")

/-- Average rating over rated gyms only, `0` if none rated
(placesAPIService.ts:934-937). -/
def averageGymRating (gyms : List PlaceResult) : ℚ :=
  let gymRatings := (gyms.filter ratingTruthy).map (fun g => g.rating.getD 0)
  if gymRatings.length > 0 then gymRatings.sum / gymRatings.length else 0

/-- Competition-level thresholds (placesAPIService.ts:940-945). -/
def competitionLevelOf (n : ℕ) : CompetitionLevel :=
  if n = 0 then .LOW
  else if n ≤ 3 then .LOW
  else if n ≤ 6 then .MEDIUM
  else if n ≤ 10 then .HIGH
  else .VERY_HIGH

/-- Market-gap classification (placesAPIService.ts:947-955). -/
def marketGapOf (gymCount corpCount aptCount : ℕ) : MarketGap :=
  let demandUnits : ℚ := corpCount + aptCount * 0.8
  let r : ℚ := if gymCount > 0 then demandUnits / gymCount else demandUnits
  if gymCount = 0 then .UNTAPPED
  else if r > 4 then .OPPORTUNITY
  else if r > 2 then .COMPETITIVE
  else .SATURATED

/-- Dedup-by-id merge of the corporate-office and coworking result lists
(placesAPIService.ts:867-880). -/
def mergeById (lists : List (List PlaceResult)) : List PlaceResult :=
  (lists.foldl (fun st list =>
    list.foldl (fun st p =>
      if st.1.contains p.id then st else (p.id :: st.1, st.2 ++ [p])) st)
    (([] : List String), ([] : List PlaceResult))).2

/-- The pure aggregation body of `getLocationIntelligence`
(placesAPIService.ts:899-994), as a function of the per-category fetched
lists. -/
def getLocationIntelligenceCore
    (gyms corporates cafes metroTransit busTransit apartments
     vibeActive vibeEntertainment : List PlaceResult) : LocationIntelligence :=
  let transit := metroTransit ++ busTransit
  let highRatedGyms := gyms.filter highRatedFilter
  let premiumGyms := gyms.filter premiumFilter
  let budgetGyms := gyms.filter budgetFilter
  let healthFocusedCafes := cafes.filter healthFilter
  { gyms :=
      { total := gyms.length
        highRated := highRatedGyms.length
        averageRating := round1 (averageGymRating gyms)
        premiumCount := premiumGyms.length
        budgetCount := budgetGyms.length
        places := gyms }
    corporateOffices := { total := corporates.length, places := corporates }
    cafesRestaurants :=
      { total := cafes.length
        healthFocused := healthFocusedCafes.length
        places := cafes }
    transitStations := { total := transit.length, places := transit }
    apartments := { total := apartments.length, places := apartments }
    vibe :=
      { total := vibeActive.length + vibeEntertainment.length
        active := vibeActive.length
        entertainment := vibeEntertainment.length
        places := vibeActive ++ vibeEntertainment }
    competitionLevel := competitionLevelOf gyms.length
    marketGap := marketGapOf gyms.length corporates.length apartments.length }

-- ── Two-tier cache (src/services/placesCache.ts) ────────────────────────────

def MEMORY_TTL_MS : ℕ := 15 * 60 * 1000
def LOCALSTORAGE_TTL_MS : ℕ := 24 * 60 * 60 * 1000
def MEMORY_MAX_ENTRIES : ℕ := 50
def LOCALSTORAGE_MAX_ENTRIES : ℕ := 30

/-- The durable-tier payload: aggregated counts and classification labels
only, no POI records (placesCache.ts:22-39). -/
structure AggregatedIntel where
  gyms : ℕ
  corporates : ℕ
  cafes : ℕ
  transit : ℕ
  apartments : ℕ
  vibeActive : ℕ
  vibeEntertainment : ℕ
  competitionLevel : String
  marketGap : String
  deriving DecidableEq, Repr

structure MemoryCacheEntry (α : Type) where
  data : α
  expiresAt : ℕ
  lastAccessed : ℕ
  deriving DecidableEq, Repr

structure LocalStorageCacheEntry where
  data : AggregatedIntel
  expiresAt : ℕ
  deriving DecidableEq, Repr

/-- A JS `Map` / string-keyed store as an association list in insertion
order (JS `Map` iteration order). -/
abbrev MapList (α : Type) : Type := List (String × α)

def mapGet {α : Type} (k : String) (m : MapList α) : Option α :=
  (m.find? (fun p => p.1 == k)).map Prod.snd

/-- Source `Map.delete` / `localStorage.removeItem`. -/
def mapDelete {α : Type} (k : String) (m : MapList α) : MapList α :=
  m.filter (fun p => p.1 != k)

/-- Source `Map.set` / `localStorage.setItem`: overwrite in place, else append. -/
def mapSet {α : Type} (k : String) (v : α) (m : MapList α) : MapList α :=
  if m.any (fun p => p.1 == k) then m.map (fun p => if p.1 == k then (k, v) else p)
  else m ++ [(k, v)]

/-- One step of the scan for the entry with the oldest `lastAccessed`
(placesCache.ts:86-90): keep the current candidate unless the present entry has a strictly older
`lastAccessed`. -/
def oldestStep {α : Type} (oldest : Option (String × ℕ))
    (p : String × MemoryCacheEntry α) : Option (String × ℕ) :=
  match oldest with
  | none => some (p.1, p.2.lastAccessed)
  | some o => if p.2.lastAccessed < o.2 then some (p.1, p.2.lastAccessed) else some o

/-- The scan for the entry with the oldest `lastAccessed`
(placesCache.ts:85-90). -/
def oldestAccessed {α : Type} (m : MapList (MemoryCacheEntry α)) : Option (String × ℕ) :=
  m.foldl oldestStep none

/-- Source `evictMemoryIfNeeded` (placesCache.ts:83-92). -/
def evictMemoryIfNeeded {α : Type} (m : MapList (MemoryCacheEntry α)) :
    MapList (MemoryCacheEntry α) :=
  if m.length < MEMORY_MAX_ENTRIES then m
  else
    match oldestAccessed m with
    | some o => mapDelete o.1 m
    | none => m

/-- Source `getMemoryCache` (placesCache.ts:95-105): miss on absence, evict on
expiry, refresh `lastAccessed` on a hit. -/
def getMemoryCache {α : Type} (now : ℕ) (key : String)
    (m : MapList (MemoryCacheEntry α)) : Option α × MapList (MemoryCacheEntry α) :=
  match mapGet key m with
  | none => (none, m)
  | some e =>
    if e.expiresAt < now then (none, mapDelete key m)
    else (some e.data, mapSet key { e with lastAccessed := now } m)

/-- Source `setMemoryCache` (placesCache.ts:108-115). -/
def setMemoryCache {α : Type} (now : ℕ) (key : String) (data : α)
    (m : MapList (MemoryCacheEntry α)) : MapList (MemoryCacheEntry α) :=
  mapSet key ⟨data, now + MEMORY_TTL_MS, now⟩ (evictMemoryIfNeeded m)

/-- The scan for the entry with the earliest `expiresAt`
(placesCache.ts:137-150). -/
def earliestExpiry (m : MapList LocalStorageCacheEntry) : Option (String × ℕ) :=
  m.foldl (fun oldest p =>
    match oldest with
    | none => some (p.1, p.2.expiresAt)
    | some o => if p.2.expiresAt < o.2 then some (p.1, p.2.expiresAt) else oldest)
    none

/-- Source `evictLocalStorageIfNeeded` (placesCache.ts:133-152). -/
def evictLocalStorageIfNeeded (m : MapList LocalStorageCacheEntry) :
    MapList LocalStorageCacheEntry :=
  if m.length < LOCALSTORAGE_MAX_ENTRIES then m
  else
    match earliestExpiry m with
    | some o => mapDelete o.1 m
    | none => m

/-- Source `getLocalStorageCache` (placesCache.ts:155-169). -/
def getLocalStorageCache (now : ℕ) (wardKey : String)
    (m : MapList LocalStorageCacheEntry) :
    Option AggregatedIntel × MapList LocalStorageCacheEntry :=
  match mapGet wardKey m with
  | none => (none, m)
  | some e =>
    if e.expiresAt < now then (none, mapDelete wardKey m)
    else (some e.data, m)

/-- Source `setLocalStorageCache` (placesCache.ts:172-184).  By its type, the
durable tier can only ever hold `AggregatedIntel` payloads. -/
def setLocalStorageCache (now : ℕ) (wardKey : String) (data : AggregatedIntel)
    (m : MapList LocalStorageCacheEntry) : MapList LocalStorageCacheEntry :=
  mapSet wardKey ⟨data, now + LOCALSTORAGE_TTL_MS⟩ (evictLocalStorageIfNeeded m)

-- ── In-flight request deduplication (placesCache.ts:194-209) ────────────────

/-- Promises are modelled by identity tokens (`ℕ`); reference equality of
promises is equality of tokens.  `factoryCalls` counts invocations of the
`fetchFn` factory. -/
structure InFlightState where
  inFlight : MapList ℕ
  nextPromiseId : ℕ
  factoryCalls : ℕ
  deriving DecidableEq, Repr

/-- Source `deduplicatedFetch` (placesCache.ts:200-209): reuse the pending promise
for `key` if one is registered, otherwise invoke the factory, register the
new promise and return it. -/
def deduplicatedFetch (key : String) (s : InFlightState) : ℕ × InFlightState :=
  match mapGet key s.inFlight with
  | some p => (p, s)
  | none =>
    let p := s.nextPromiseId
    (p, { inFlight := mapSet key p s.inFlight
          nextPromiseId := p + 1
          factoryCalls := s.factoryCalls + 1 })

/-- Settlement of the promise registered for `key`: the `promise.finally`
handler deletes the in-flight entry whatever the outcome (`resolved` is
ignored, as the source handler ignores it). -/
def settlePromise (key : String) (resolved : Bool) (s : InFlightState) : InFlightState :=
  { s with inFlight := mapDelete key s.inFlight }

-- ── Session layer: effects of the query client and aggregator ───────────────

/-- Observable state of one browsing session: the two cache tiers and the
number of provider requests issued so far. -/
structure SessionState where
  memoryCache : MapList (MemoryCacheEntry (List PlaceResult))
  localStorage : MapList LocalStorageCacheEntry
  providerCalls : ℕ
  deriving DecidableEq, Repr

/-- Source `nearbySearch` with its effects: it issues one provider request per zone
(five in total) and touches neither cache tier — the source function contains
no cache operation. -/
def nearbySearchRun (withinR : ℚ → ℚ → Bool) (provider : ZoneQuery → FetchOutcome)
    (lat lng radiusMeters : ℚ) (placeTypes : List String) (primaryOnly : Bool)
    (s : SessionState) : List PlaceResult × SessionState :=
  let zones := zonesFor lat lng radiusMeters
  let zoneResults := zones.map
    (fun z => fetchZone (provider ⟨z.1, z.2.1, z.2.2, placeTypes, primaryOnly⟩))
  (mergeFilter withinR zoneResults,
   { s with providerCalls := s.providerCalls + zones.length })

/-- Source `getLocationIntelligence` (placesAPIService.ts:854-994) with its effects:
nine category queries through `nearbySearch`, the corporate merge, then the
pure aggregation.  The source function contains no cache operation either. -/
def getLocationIntelligenceRun (withinR : ℚ → ℚ → Bool)
    (provider : ZoneQuery → FetchOutcome) (lat lng radiusMeters : ℚ)
    (s : SessionState) : LocationIntelligence × SessionState :=
  let (gyms, s1) := nearbySearchRun withinR provider lat lng radiusMeters ["gym"] false s
  let (offices, s2) :=
    nearbySearchRun withinR provider lat lng radiusMeters ["corporate_office"] true s1
  let (coworking, s3) :=
    nearbySearchRun withinR provider lat lng radiusMeters ["coworking_space"] true s2
  let corporates := mergeById [offices, coworking]
  let (cafes, s4) :=
    nearbySearchRun withinR provider lat lng radiusMeters ["cafe", "coffee_shop"] false s3
  let (metroTransit, s5) :=
    nearbySearchRun withinR provider lat lng radiusMeters
      ["subway_station", "light_rail_station"] false s4
  let (busTransit, s6) :=
    nearbySearchRun withinR provider lat lng radiusMeters
      ["bus_station", "bus_stop", "transit_station"] false s5
  let (apartments, s7) :=
    nearbySearchRun withinR provider lat lng radiusMeters ["apartment_complex"] false s6
  let (vibeActive, s8) :=
    nearbySearchRun withinR provider lat lng radiusMeters
      ["yoga_studio", "sports_complex"] false s7
  let (vibeEntertainment, s9) :=
    nearbySearchRun withinR provider lat lng radiusMeters
      ["movie_theater", "bar", "night_club"] false s8
  (getLocationIntelligenceCore gyms corporates cafes metroTransit busTransit
    apartments vibeActive vibeEntertainment, s9)

/-- Source `getLocationIntelligence` as an `Except` computation: each category query
is bound through `Except`, so an `.error` anywhere would abort the whole
aggregation. -/
def getLocationIntelligenceE (withinR : ℚ → ℚ → Bool)
    (provider : ZoneQuery → FetchOutcome) (lat lng radiusMeters : ℚ) :
    Except String LocationIntelligence := do
  let gyms ← nearbySearchE withinR provider lat lng radiusMeters ["gym"] false
  let offices ← nearbySearchE withinR provider lat lng radiusMeters ["corporate_office"] true
  let coworking ← nearbySearchE withinR provider lat lng radiusMeters ["coworking_space"] true
  let corporates := mergeById [offices, coworking]
  let cafes ← nearbySearchE withinR provider lat lng radiusMeters ["cafe", "coffee_shop"] false
  let metroTransit ← nearbySearchE withinR provider lat lng radiusMeters
    ["subway_station", "light_rail_station"] false
  let busTransit ← nearbySearchE withinR provider lat lng radiusMeters
    ["bus_station", "bus_stop", "transit_station"] false
  let apartments ← nearbySearchE withinR provider lat lng radiusMeters
    ["apartment_complex"] false
  let vibeActive ← nearbySearchE withinR provider lat lng radiusMeters
    ["yoga_studio", "sports_complex"] false
  let vibeEntertainment ← nearbySearchE withinR provider lat lng radiusMeters
    ["movie_theater", "bar", "night_club"] false
  pure (getLocationIntelligenceCore gyms corporates cafes metroTransit busTransit
    apartments vibeActive vibeEntertainment)

-- ── Suitability scorers (src/services/geoService.ts, src/unnamed/part_001) ──

/-- Source `LocationType` (src/types.ts). -/
inductive LocationType where
  | GYM | SYNERGY | METRO | HIGH_RISE | CORPORATE | PARK
  deriving DecidableEq, Repr

/-- Source `ScoringMatrix` (src/types.ts).  The scorers emit `Math.round`ed values,
embedded as integers coerced to `ℚ`. -/
structure ScoringMatrix where
  demographicLoad : ℚ
  connectivity : ℚ
  competitorRatio : ℚ
  infrastructure : ℚ
  total : ℚ
  deriving DecidableEq, Repr

/-- Accumulator of the `MOCK_LOCATIONS.forEach` loop in
`calculateSuitability` (geoService.ts:23-70). -/
structure SuitAccum where
  demo : ℚ
  conn : ℚ
  compDensity : ℚ
  infra : ℚ
  deriving DecidableEq, Repr

/-- One iteration of the loop, given the (transcendental) haversine distance
to the reference point as data. -/
def suitStep (r : ℚ) (acc : SuitAccum) (loc : LocationType × ℚ) : SuitAccum :=
  let dist := loc.2
  if dist > r * 1.2 then acc
  else
    let acc := if loc.1 = .GYM ∧ dist < r then
      { acc with compDensity := acc.compDensity + (r - dist) * (if r < 1 then 45 else 30) }
      else acc
    let acc := if loc.1 = .CORPORATE ∧ dist < r * 1.0 then
      { acc with demo := acc.demo + (r * 1.0 - dist) * (150 / r) } else acc
    let acc := if loc.1 = .HIGH_RISE ∧ dist < r * 1.0 then
      { acc with demo := acc.demo + (r * 1.0 - dist) * (120 / r) } else acc
    let acc := if loc.1 = .PARK ∧ dist < r * 0.8 then
      { acc with infra := acc.infra + (r * 0.8 - dist) * (140 / r) } else acc
    let acc := if loc.1 = .SYNERGY ∧ dist < r * 0.8 then
      { acc with infra := acc.infra + (r * 0.8 - dist) * (80 / r) } else acc
    let acc := if loc.1 = .METRO ∧ dist < r * 1.5 then
      { acc with conn := acc.conn + (r * 1.5 - dist) * (60 / r) } else acc
    acc

/-- Source `calculateSuitability` (geoService.ts:21-93), as a function of the typed
reference points paired with their haversine distances from the query
point. -/
def calculateSuitability (dists : List (LocationType × ℚ)) (searchRadiusKm : ℚ) :
    ScoringMatrix :=
  let acc := dists.foldl (suitStep searchRadiusKm) ⟨30, 20, 0, 20⟩
  let competitorRat := max 0 (100 - acc.compDensity)
  let finalDemo := clamp acc.demo
  let finalConn := clamp acc.conn
  let finalComp := clamp (if finalDemo > 80 then competitorRat + 15 else competitorRat)
  let finalInfra := clamp acc.infra
  let total := finalDemo * 0.45 + finalConn * 0.1 + finalComp * 0.25 + finalInfra * 0.2
  { demographicLoad := (jsRound finalDemo : ℚ)
    connectivity := (jsRound finalConn : ℚ)
    competitorRatio := (jsRound finalComp : ℚ)
    infrastructure := (jsRound finalInfra : ℚ)
    total := (jsRound total : ℚ) }

/-- Source `logNorm` (part_001:170): `log1p(count)/log1p(sat) × 100`, with the
transcendental `Math.log1p` as a parameter. -/
def logNorm (log1p : ℚ → ℚ) (count sat : ℚ) : ℚ :=
  log1p count / log1p sat * 100

/-- Source `calculateSuitabilityWithRealData` (part_001:162-220), as a function of
the fetched per-category counts. -/
def calculateSuitabilityWithRealData (log1p : ℚ → ℚ)
    (gymCount aptCount corpCount cafeCount vibeActiveCount vibeEntCount
     metroCount busCount : ℕ) : ScoringMatrix :=
  let rawApt := logNorm log1p aptCount 40
  let rawCorp := logNorm log1p corpCount 30
  let rawCafe := logNorm log1p cafeCount 30
  let rawDemand := clamp (rawApt * 0.45 + rawCorp * 0.35 + rawCafe * 0.20)
  let gymPenalty := logNorm log1p gymCount 15 / 100 * 0.35
  let finalDemo := clamp (rawDemand * (1 - gymPenalty))
  let demandUnits : ℚ := aptCount + corpCount * 0.8
  let gapRat := demandUnits / max (gymCount : ℚ) 1
  let finalGap := clamp (logNorm log1p gapRat 5)
  let activeScore := logNorm log1p vibeActiveCount 6
  let socialScore := logNorm log1p vibeEntCount 8
  let finalVibe := clamp (activeScore * 0.55 + socialScore * 0.45)
  let metroScore := logNorm log1p metroCount 5
  let busScore := logNorm log1p busCount 10 * 0.6
  let finalConn := clamp (metroScore * 0.65 + busScore * 0.35)
  let total := finalDemo * 0.40 + finalGap * 0.30 + finalVibe * 0.20 + finalConn * 0.10
  { demographicLoad := (jsRound finalDemo : ℚ)
    connectivity := (jsRound finalConn : ℚ)
    competitorRatio := (jsRound finalGap : ℚ)
    infrastructure := (jsRound finalVibe : ℚ)
    total := (jsRound total : ℚ) }

/-- The `makeRequest` merge loop of `fetchRealPOIData` (part_001:121-134):
the dedup key falls back to the display name, and records with a missing
latitude or longitude are dropped before the radius check. -/
def rawKey (p : RawPlace) : Option String :=
  let cand := if p.id = "" then p.displayName else some p.id
  match cand with
  | none => none
  | some s => if s = "" then none else some s

def makeRequestMerge (withinR : ℚ → ℚ → Bool) (zoneResults : List (List RawPlace)) :
    List RawPlace :=
  (zoneResults.foldl (fun st results =>
    results.foldl (fun st place =>
      match rawKey place, place.location with
      | some id, some l =>
        if !st.1.contains id && withinR l.1 l.2
        then (id :: st.1, st.2 ++ [place])
        else st
      | _, _ => st) st) (([] : List String), ([] : List RawPlace))).2

-- ═══════════════════════════ Theorems ═══════════════════════════

/-- Reference market-gap classification, transcribed from the specified
definition: zero gyms is `UNTAPPED`; otherwise the label follows the
demand-to-supply `demandUnits / gymCount` thresholds 4 and 2. -/
def marketGapSpec (gymCount corpCount aptCount : ℕ) : MarketGap :=
  if gymCount = 0 then .UNTAPPED
  else
    let demandUnits : ℚ := corpCount + 0.8 * aptCount
    let r : ℚ := demandUnits / gymCount
    if r > 4 then .OPPORTUNITY
    else if r > 2 then .COMPETITIVE
    else .SATURATED

lemma marketGapOf_eq_spec (g c a : ℕ) : marketGapOf g c a = marketGapSpec g c a := by
  unfold marketGapOf marketGapSpec
  rcases Nat.eq_zero_or_pos g with hg | hg
  · simp [hg]
  · have hg0 : g ≠ 0 := Nat.pos_iff_ne_zero.mp hg
    have hcomm : (c : ℚ) + (a : ℚ) * 0.8 = (c : ℚ) + 0.8 * (a : ℚ) := by ring
    simp only [hg, hg0, if_true, if_false, hcomm]

lemma marketGapOf_untapped_iff (g c a : ℕ) :
    marketGapOf g c a = .UNTAPPED ↔ g = 0 := by
  unfold marketGapOf
  rcases Nat.eq_zero_or_pos g with hg | hg
  · simp [hg]
  · have hg0 : g ≠ 0 := Nat.pos_iff_ne_zero.mp hg
    by_cases h4 : ((c : ℚ) + (a : ℚ) * 0.8) / (g : ℚ) > 4
    · simp [hg0, hg, h4]
    · by_cases h2 : ((c : ℚ) + (a : ℚ) * 0.8) / (g : ℚ) > 2 <;>
        simp [hg0, hg, h4, h2]

/-- C3: the `marketGap` computed by `getLocationIntelligence` equals the
reference definition (UNTAPPED exactly when the gym count is zero, otherwise
the ratio `(corporates + 0.8·apartments) / gyms` against thresholds 4 and
2), and `UNTAPPED` occurs precisely when the gym count is zero. -/
theorem marketGap_matches_reference
    (gyms corporates cafes metroTransit busTransit apartments
     vibeActive vibeEntertainment : List PlaceResult) :
    (getLocationIntelligenceCore gyms corporates cafes metroTransit busTransit
        apartments vibeActive vibeEntertainment).marketGap
      = marketGapSpec gyms.length corporates.length apartments.length
    ∧ ((getLocationIntelligenceCore gyms corporates cafes metroTransit busTransit
        apartments vibeActive vibeEntertainment).marketGap
      = MarketGap.UNTAPPED ↔ gyms.length = 0) := by
  constructor
  · exact marketGapOf_eq_spec _ _ _
  · exact marketGapOf_untapped_iff _ _ _

/-- Reference competition-level bands, transcribed from the claim:
`n ≤ 3 → LOW`, `3 < n ≤ 6 → MEDIUM`, `6 < n ≤ 10 → HIGH`, `n > 10 →
VERY_HIGH` (upper bounds inclusive in the lower band). -/
def competitionLevelSpec (n : ℕ) : CompetitionLevel :=
  if n ≤ 3 then .LOW
  else if n ≤ 6 then .MEDIUM
  else if n ≤ 10 then .HIGH
  else .VERY_HIGH

/-- C4: the `competitionLevel` computed by `getLocationIntelligence` follows
the banded thresholds (≤3 LOW, ≤6 MEDIUM, ≤10 HIGH, else VERY_HIGH), and the
boundary gym counts {3,4,6,7,10,11} map to
{LOW, MEDIUM, MEDIUM, HIGH, HIGH, VERY_HIGH}. -/
theorem competitionLevel_thresholds
    (gyms corporates cafes metroTransit busTransit apartments
     vibeActive vibeEntertainment : List PlaceResult) :
    (getLocationIntelligenceCore gyms corporates cafes metroTransit busTransit
        apartments vibeActive vibeEntertainment).competitionLevel
      = competitionLevelSpec gyms.length
    ∧ [3, 4, 6, 7, 10, 11].map competitionLevelOf
      = [.LOW, .MEDIUM, .MEDIUM, .HIGH, .HIGH, .VERY_HIGH] := by
  constructor
  · show competitionLevelOf gyms.length = competitionLevelSpec gyms.length
    unfold competitionLevelOf competitionLevelSpec
    by_cases h : gyms.length = 0
    · simp [h]
    · simp [h]
  · decide

/-- C10: every intelligence report is internally consistent — each
per-category `total` equals the length of its `places` list, the vibe total
splits into active + entertainment, gym sub-counts never exceed the gym
total, and the average gym rating is 0 when no gym carries a rating. -/
theorem locationIntelligence_consistent
    (gyms corporates cafes metroTransit busTransit apartments
     vibeActive vibeEntertainment : List PlaceResult) :
    (getLocationIntelligenceCore gyms corporates cafes metroTransit busTransit
        apartments vibeActive vibeEntertainment).gyms.total
      = (getLocationIntelligenceCore gyms corporates cafes metroTransit busTransit
        apartments vibeActive vibeEntertainment).gyms.places.length
    ∧ (getLocationIntelligenceCore gyms corporates cafes metroTransit busTransit
        apartments vibeActive vibeEntertainment).corporateOffices.total
      = (getLocationIntelligenceCore gyms corporates cafes metroTransit busTransit
        apartments vibeActive vibeEntertainment).corporateOffices.places.length
    ∧ (getLocationIntelligenceCore gyms corporates cafes metroTransit busTransit
        apartments vibeActive vibeEntertainment).cafesRestaurants.total
      = (getLocationIntelligenceCore gyms corporates cafes metroTransit busTransit
        apartments vibeActive vibeEntertainment).cafesRestaurants.places.length
    ∧ (getLocationIntelligenceCore gyms corporates cafes metroTransit busTransit
        apartments vibeActive vibeEntertainment).transitStations.total
      = (getLocationIntelligenceCore gyms corporates cafes metroTransit busTransit
        apartments vibeActive vibeEntertainment).transitStations.places.length
    ∧ (getLocationIntelligenceCore gyms corporates cafes metroTransit busTransit
        apartments vibeActive vibeEntertainment).apartments.total
      = (getLocationIntelligenceCore gyms corporates cafes metroTransit busTransit
        apartments vibeActive vibeEntertainment).apartments.places.length
    ∧ (getLocationIntelligenceCore gyms corporates cafes metroTransit busTransit
        apartments vibeActive vibeEntertainment).vibe.total
      = (getLocationIntelligenceCore gyms corporates cafes metroTransit busTransit
        apartments vibeActive vibeEntertainment).vibe.active
      + (getLocationIntelligenceCore gyms corporates cafes metroTransit busTransit
        apartments vibeActive vibeEntertainment).vibe.entertainment
    ∧ (getLocationIntelligenceCore gyms corporates cafes metroTransit busTransit
        apartments vibeActive vibeEntertainment).vibe.total
      = (getLocationIntelligenceCore gyms corporates cafes metroTransit busTransit
        apartments vibeActive vibeEntertainment).vibe.places.length
    ∧ (getLocationIntelligenceCore gyms corporates cafes metroTransit busTransit
        apartments vibeActive vibeEntertainment).gyms.highRated
      ≤ (getLocationIntelligenceCore gyms corporates cafes metroTransit busTransit
        apartments vibeActive vibeEntertainment).gyms.total
    ∧ (getLocationIntelligenceCore gyms corporates cafes metroTransit busTransit
        apartments vibeActive vibeEntertainment).gyms.premiumCount
      ≤ (getLocationIntelligenceCore gyms corporates cafes metroTransit busTransit
        apartments vibeActive vibeEntertainment).gyms.total
    ∧ (getLocationIntelligenceCore gyms corporates cafes metroTransit busTransit
        apartments vibeActive vibeEntertainment).gyms.budgetCount
      ≤ (getLocationIntelligenceCore gyms corporates cafes metroTransit busTransit
        apartments vibeActive vibeEntertainment).gyms.total
    ∧ ((∀ g ∈ gyms, (g : PlaceResult).rating = none) →
      (getLocationIntelligenceCore gyms corporates cafes metroTransit busTransit
        apartments vibeActive vibeEntertainment).gyms.averageRating = 0) := by
  refine ⟨rfl, rfl, rfl, ?_, rfl, rfl, ?_, ?_, ?_, ?_, ?_⟩
  · simp [getLocationIntelligenceCore]
  · simp [getLocationIntelligenceCore]
  · exact List.length_filter_le _ _
  · exact List.length_filter_le _ _
  · exact List.length_filter_le _ _
  · intro hnone
    have hfilter : gyms.filter ratingTruthy = [] := by
      apply List.filter_eq_nil_iff.mpr
      intro g hg
      simp [ratingTruthy, hnone g hg]
    norm_num [getLocationIntelligenceCore, averageGymRating, hfilter, round1]

/-- A rated-free gym record used to instantiate the consistency theorem. -/
def c10Gym : PlaceResult :=
  { id := "g1", displayName := "Gym One", lat := 0, lng := 0, rating := none
    userRatingCount := none, priceLevel := some "PRICE_LEVEL_EXPENSIVE"
    types := ["gym"], formattedAddress := none, businessStatus := none }

theorem locationIntelligence_consistent_witness :
    (getLocationIntelligenceCore [c10Gym] [] [] [] [] [] [] []).gyms.total
      = (getLocationIntelligenceCore [c10Gym] [] [] [] [] [] [] []).gyms.places.length
    ∧ (getLocationIntelligenceCore [c10Gym] [] [] [] [] [] [] []).vibe.total
      = (getLocationIntelligenceCore [c10Gym] [] [] [] [] [] [] []).vibe.active
      + (getLocationIntelligenceCore [c10Gym] [] [] [] [] [] [] []).vibe.entertainment
    ∧ (getLocationIntelligenceCore [c10Gym] [] [] [] [] [] [] []).gyms.highRated
      ≤ (getLocationIntelligenceCore [c10Gym] [] [] [] [] [] [] []).gyms.total
    ∧ (getLocationIntelligenceCore [c10Gym] [] [] [] [] [] [] []).gyms.averageRating
      = 0 := by
  obtain ⟨h1, h2, h3, h4, h5, h6, h7, h8, h9, h10, h11⟩ :=
    locationIntelligence_consistent [c10Gym] [] [] [] [] [] [] []
  refine ⟨h1, h6, h8, h11 ?_⟩
  intro g hg
  rcases List.mem_singleton.mp hg with rfl
  rfl

lemma clamp_mem (v : ℚ) : 0 ≤ clamp v ∧ clamp v ≤ 100 :=
  ⟨le_max_left 0 _, max_le (by norm_num) (min_le_left _ _)⟩

lemma jsRound_mem (q : ℚ) (h0 : 0 ≤ q) (h1 : q ≤ 100) :
    0 ≤ ((jsRound q : ℤ) : ℚ) ∧ ((jsRound q : ℤ) : ℚ) ≤ 100 := by
  unfold jsRound
  constructor
  · have : (0 : ℤ) ≤ ⌊q + 1/2⌋ := Int.floor_nonneg.mpr (by linarith)
    exact_mod_cast this
  · have h : ⌊q + 1/2⌋ < (101 : ℤ) := Int.floor_lt.mpr (by push_cast; linarith)
    have h2 : ⌊q + 1/2⌋ ≤ (100 : ℤ) := by omega
    exact_mod_cast h2

/-- All five fields of a `ScoringMatrix` lie in [0,100]. -/
def inUnitRange (m : ScoringMatrix) : Prop :=
  (0 ≤ m.demographicLoad ∧ m.demographicLoad ≤ 100)
  ∧ (0 ≤ m.connectivity ∧ m.connectivity ≤ 100)
  ∧ (0 ≤ m.competitorRatio ∧ m.competitorRatio ≤ 100)
  ∧ (0 ≤ m.infrastructure ∧ m.infrastructure ≤ 100)
  ∧ (0 ≤ m.total ∧ m.total ≤ 100)

/-- C5: for every search radius, reference dataset and distance data, and for
every `log1p` interpretation and every combination of fetched POI counts,
all five `ScoringMatrix` fields of both scorers — the distance-decay
`calculateSuitability` and the log-normalized
`calculateSuitabilityWithRealData` — lie in [0,100]. -/
theorem scoringMatrix_bounds
    (dists : List (LocationType × ℚ)) (searchRadiusKm : ℚ) (log1p : ℚ → ℚ)
    (gymCount aptCount corpCount cafeCount vibeActiveCount vibeEntCount
     metroCount busCount : ℕ) :
    inUnitRange (calculateSuitability dists searchRadiusKm)
    ∧ inUnitRange (calculateSuitabilityWithRealData log1p gymCount aptCount
        corpCount cafeCount vibeActiveCount vibeEntCount metroCount busCount) := by
  constructor
  · unfold inUnitRange calculateSuitability
    obtain ⟨hd0, hd1⟩ := clamp_mem (dists.foldl (suitStep searchRadiusKm) ⟨30, 20, 0, 20⟩).demo
    obtain ⟨hc0, hc1⟩ := clamp_mem (dists.foldl (suitStep searchRadiusKm) ⟨30, 20, 0, 20⟩).conn
    obtain ⟨hi0, hi1⟩ := clamp_mem (dists.foldl (suitStep searchRadiusKm) ⟨30, 20, 0, 20⟩).infra
    obtain ⟨hp0, hp1⟩ := clamp_mem
      (if clamp (dists.foldl (suitStep searchRadiusKm) ⟨30, 20, 0, 20⟩).demo > 80
       then max 0 (100 - (dists.foldl (suitStep searchRadiusKm) ⟨30, 20, 0, 20⟩).compDensity) + 15
       else max 0 (100 - (dists.foldl (suitStep searchRadiusKm) ⟨30, 20, 0, 20⟩).compDensity))
    refine ⟨jsRound_mem _ hd0 hd1, jsRound_mem _ hc0 hc1, jsRound_mem _ hp0 hp1,
      jsRound_mem _ hi0 hi1, jsRound_mem _ (by nlinarith) (by nlinarith)⟩
  · unfold inUnitRange calculateSuitabilityWithRealData
    obtain ⟨hd0, hd1⟩ := clamp_mem
      ((clamp (logNorm log1p aptCount 40 * 0.45 + logNorm log1p corpCount 30 * 0.35 +
          logNorm log1p cafeCount 30 * 0.20)) *
        (1 - logNorm log1p gymCount 15 / 100 * 0.35))
    obtain ⟨hg0, hg1⟩ := clamp_mem
      (logNorm log1p ((aptCount + corpCount * 0.8) / max (gymCount : ℚ) 1) 5)
    obtain ⟨hv0, hv1⟩ := clamp_mem
      (logNorm log1p vibeActiveCount 6 * 0.55 + logNorm log1p vibeEntCount 8 * 0.45)
    obtain ⟨hc0, hc1⟩ := clamp_mem
      (logNorm log1p metroCount 5 * 0.65 + logNorm log1p busCount 10 * 0.6 * 0.35)
    refine ⟨jsRound_mem _ hd0 hd1, jsRound_mem _ hc0 hc1, jsRound_mem _ hg0 hg1,
      jsRound_mem _ hv0 hv1, jsRound_mem _ (by nlinarith) (by nlinarith)⟩

lemma mapM_okE {β γ : Type} (f : β → γ) :
    ∀ l : List β, (l.mapM (fun z => (Except.ok (f z) : Except String γ)))
      = .ok (l.map f) := by
  intro l
  induction l with
  | nil => rfl
  | cons h t ih => rw [List.mapM_cons, ih]; rfl

lemma nearbySearchE_ok (withinR : ℚ → ℚ → Bool) (provider : ZoneQuery → FetchOutcome)
    (lat lng radiusMeters : ℚ) (placeTypes : List String) (primaryOnly : Bool) :
    nearbySearchE withinR provider lat lng radiusMeters placeTypes primaryOnly
      = .ok (nearbySearch withinR provider lat lng radiusMeters placeTypes primaryOnly) := by
  unfold nearbySearchE nearbySearch
  rw [mapM_okE]
  rfl

/-- C8: every provider failure (non-2xx status or network error) degrades to
an empty per-category result list, and no exception ever escapes
`nearbySearch`, `textSearch`, or the whole `getLocationIntelligence`
aggregation — all three always produce `.ok` values, for every provider
behaviour. -/
theorem provider_failures_degrade (withinR : ℚ → ℚ → Bool)
    (provider : ZoneQuery → FetchOutcome) (lat lng radiusMeters : ℚ)
    (placeTypes : List String) (primaryOnly : Bool) (status : ℕ) (o : FetchOutcome) :
    (∃ l, nearbySearchE withinR provider lat lng radiusMeters placeTypes primaryOnly
      = .ok l)
    ∧ (∃ l, textSearchE o = .ok l)
    ∧ (∃ li, getLocationIntelligenceE withinR provider lat lng radiusMeters = .ok li)
    ∧ fetchZone (.httpError status) = []
    ∧ fetchZone .netError = []
    ∧ textSearch (.httpError status) = []
    ∧ textSearch .netError = []
    ∧ nearbySearch withinR (fun _ => .netError) lat lng radiusMeters placeTypes
        primaryOnly = []
    ∧ nearbySearch withinR (fun _ => .httpError status) lat lng radiusMeters
        placeTypes primaryOnly = [] := by
  refine ⟨⟨_, nearbySearchE_ok _ _ _ _ _ _ _⟩, ?_, ?_, rfl, rfl, rfl, rfl, rfl, rfl⟩
  · cases o <;> exact ⟨_, rfl⟩
  · unfold getLocationIntelligenceE
    simp only [nearbySearchE_ok]
    exact ⟨_, rfl⟩

lemma find?_replace {α : Type} (k : String) (v : α) :
    ∀ m : MapList α, m.any (fun p => p.1 == k) = true →
      (m.map (fun p => if p.1 == k then (k, v) else p)).find? (fun p => p.1 == k)
        = some (k, v) := by
  intro m
  induction m with
  | nil => intro h; simp at h
  | cons p t ih =>
    intro h
    by_cases hpk : p.1 == k
    · simp [List.find?, hpk]
    · have ht : t.any (fun p => p.1 == k) = true := by
        rcases List.any_eq_true.mp h with ⟨x, hx, hxk⟩
        rcases List.mem_cons.mp hx with rfl | hx2
        · exact absurd hxk (by simp_all)
        · exact List.any_eq_true.mpr ⟨x, hx2, hxk⟩
      simp only [List.map_cons, List.find?, hpk, if_false]
      simpa [hpk] using ih ht

lemma find?_append_absent {α : Type} (k : String) (v : α) :
    ∀ m : MapList α, m.any (fun p => p.1 == k) = false →
      (m ++ [(k, v)]).find? (fun p => p.1 == k) = some (k, v) := by
  intro m
  induction m with
  | nil => intro _; simp [List.find?]
  | cons p t ih =>
    intro h
    simp only [List.any_cons, Bool.or_eq_false_iff] at h
    simp only [List.cons_append, List.find?, h.1]
    exact ih h.2

lemma mapGet_mapSet_self {α : Type} (k : String) (v : α) (m : MapList α) :
    mapGet k (mapSet k v m) = some v := by
  unfold mapGet mapSet
  by_cases h : m.any (fun p => p.1 == k)
  · rw [if_pos h, find?_replace k v m h]
    rfl
  · rw [if_neg (by simp [h]), find?_append_absent k v m (by simp [h])]
    rfl

lemma mapGet_mapDelete_self {α : Type} (k : String) (m : MapList α) :
    mapGet k (mapDelete k m) = none := by
  unfold mapGet mapDelete
  rw [List.find?_eq_none.mpr]
  · rfl
  · intro x hx
    have := (List.mem_filter.mp hx).2
    simp only [bne_iff_ne, ne_eq] at this
    simp [this]

/-- C7: two overlapping `deduplicatedFetch` calls for the same key return the
reference-equal pending promise and invoke the factory exactly once, the
second call does not change the registry, and settlement of the promise —
resolution or rejection alike — removes the in-flight entry. -/
theorem deduplicatedFetch_shares (s : InFlightState) (key : String)
    (h : mapGet key s.inFlight = none) :
    (deduplicatedFetch key (deduplicatedFetch key s).2).1 = (deduplicatedFetch key s).1
    ∧ (deduplicatedFetch key (deduplicatedFetch key s).2).2 = (deduplicatedFetch key s).2
    ∧ ((deduplicatedFetch key s).2).factoryCalls = s.factoryCalls + 1
    ∧ ∀ resolved : Bool,
        mapGet key ((settlePromise key resolved (deduplicatedFetch key s).2).inFlight)
          = none := by
  have h1 : deduplicatedFetch key s
      = (s.nextPromiseId,
         ⟨mapSet key s.nextPromiseId s.inFlight, s.nextPromiseId + 1,
          s.factoryCalls + 1⟩) := by
    unfold deduplicatedFetch
    rw [h]
  have h2 : mapGet key (mapSet key s.nextPromiseId s.inFlight)
      = some s.nextPromiseId := mapGet_mapSet_self _ _ _
  refine ⟨?_, ?_, ?_, ?_⟩
  · rw [h1]
    unfold deduplicatedFetch
    rw [h2]
  · rw [h1]
    unfold deduplicatedFetch
    rw [h2]
  · rw [h1]
  · intro resolved
    rw [h1]
    exact mapGet_mapDelete_self _ _

def c7Init : InFlightState := ⟨[], 0, 0⟩

theorem deduplicatedFetch_shares_witness :
    (deduplicatedFetch "poi" (deduplicatedFetch "poi" c7Init).2).1
      = (deduplicatedFetch "poi" c7Init).1
    ∧ ((deduplicatedFetch "poi" c7Init).2).factoryCalls = c7Init.factoryCalls + 1
    ∧ mapGet "poi" ((settlePromise "poi" false (deduplicatedFetch "poi" c7Init).2).inFlight)
      = none := by
  obtain ⟨a, b, c, d⟩ := deduplicatedFetch_shares c7Init "poi" rfl
  exact ⟨a, c, d false⟩

-- ── C9: defaulted (0,0) locations and the radius filter ─────────────────────

/-- A radius predicate accepting everything. -/
def withinAll : ℚ → ℚ → Bool := fun _ _ => true

/-- A radius predicate rejecting exactly the origin (0,0). -/
def withinNonzero : ℚ → ℚ → Bool :=
  fun la ln => !(decide (la = 0) && decide (ln = 0))

/-- A provider record with no `location` field. -/
def c9Raw : RawPlace :=
  { id := "poi-1", displayName := some "No Location", location := none
    rating := none, userRatingCount := none, priceLevel := none
    types := some [], formattedAddress := none, businessStatus := none }

def c9Provider : ZoneQuery → FetchOutcome := fun _ => .ok [c9Raw]

/-- C9 counterexample: in the multi-zone `nearbySearch`, a record whose
provider data has no location is defaulted to (0,0) and that defaulted
coordinate IS fed to the radius-membership check — flipping the radius
value of the predicate at (0,0) alone flips the record in and out of the result,
so the defaulted coordinates are used for distance filtering, contrary to
the claim. -/
theorem defaulted_location_is_distance_filtered :
    withinNonzero 0 0 = false
    ∧ nearbySearch withinAll c9Provider 13 77.5 1000 ["gym"] false = [mapPlace c9Raw]
    ∧ nearbySearch withinNonzero c9Provider 13 77.5 1000 ["gym"] false = [] := by
  refine ⟨rfl, ?_, ?_⟩ <;> rfl

/-- C9 amended: in `nearbySearch` a missing provider location is defaulted to
(0,0) and membership of the record in the result is exactly the verdict of
the radius predicate at (0,0) (the check IS applied to the defaulted
coordinates); only the `fetchRealPOIData` variant (part_001) drops records
lacking coordinates before the radius check, so there a missing-location
record never reaches the distance filter, for every radius predicate. -/
theorem defaulted_location_handling (withinR : ℚ → ℚ → Bool) (raw : RawPlace)
    (hloc : raw.location = none) :
    (mapPlace raw).lat = 0
    ∧ (mapPlace raw).lng = 0
    ∧ mergeFilter withinR [[mapPlace raw]]
      = (if withinR 0 0 = true then [mapPlace raw] else [])
    ∧ makeRequestMerge withinR [[raw]] = [] := by
  have hlat : (mapPlace raw).lat = 0 := by simp [mapPlace, hloc]
  have hlng : (mapPlace raw).lng = 0 := by simp [mapPlace, hloc]
  refine ⟨hlat, hlng, ?_, ?_⟩
  · by_cases hw : withinR 0 0 = true <;>
      simp [mergeFilter, hlat, hlng, hw]
  · cases hk : rawKey raw <;> simp [makeRequestMerge, hloc, hk]

theorem defaulted_location_handling_witness :
    (mapPlace c9Raw).lat = 0
    ∧ (mapPlace c9Raw).lng = 0
    ∧ mergeFilter withinAll [[mapPlace c9Raw]]
      = (if withinAll 0 0 = true then [mapPlace c9Raw] else [])
    ∧ makeRequestMerge withinAll [[c9Raw]] = [] :=
  defaulted_location_handling withinAll c9Raw rfl

-- ── C1 / C2: the caches are never consulted by the query pipeline ───────────

def c1Provider : ZoneQuery → FetchOutcome := fun _ => .ok []

def emptySession : SessionState := ⟨[], [], 0⟩

/-- C1 counterexample: two `nearbySearch` calls with identical arguments from
a fresh session issue ten provider requests (five zones each), not one, and
the first call leaves the memory cache empty — nothing is checked or stored
in the memory cache. -/
theorem nearbySearch_no_caching_counterexample :
    ((nearbySearchRun withinAll c1Provider 13 77.5 1000 ["gym"] false
        (nearbySearchRun withinAll c1Provider 13 77.5 1000 ["gym"] false
          emptySession).2).2).providerCalls = 10
    ∧ (10 : ℕ) ≠ 1
    ∧ ((nearbySearchRun withinAll c1Provider 13 77.5 1000 ["gym"] false
        emptySession).2).memoryCache = [] := by
  refine ⟨rfl, by decide, rfl⟩

/-- C1 amended: `nearbySearch` performs five provider requests (one per
zone) on every call and touches the memory cache on none of them; two calls
with identical arguments therefore issue ten provider requests in total,
return equal results, and leave the memory cache exactly as it was. -/
theorem nearbySearch_no_caching (withinR : ℚ → ℚ → Bool)
    (provider : ZoneQuery → FetchOutcome) (lat lng radiusMeters : ℚ)
    (placeTypes : List String) (primaryOnly : Bool) (s : SessionState) :
    ((nearbySearchRun withinR provider lat lng radiusMeters placeTypes primaryOnly
        (nearbySearchRun withinR provider lat lng radiusMeters placeTypes primaryOnly
          s).2).2).providerCalls = s.providerCalls + 10
    ∧ ((nearbySearchRun withinR provider lat lng radiusMeters placeTypes primaryOnly
        s).2).memoryCache = s.memoryCache
    ∧ ((nearbySearchRun withinR provider lat lng radiusMeters placeTypes primaryOnly
        (nearbySearchRun withinR provider lat lng radiusMeters placeTypes primaryOnly
          s).2).2).memoryCache = s.memoryCache
    ∧ (nearbySearchRun withinR provider lat lng radiusMeters placeTypes primaryOnly
        (nearbySearchRun withinR provider lat lng radiusMeters placeTypes primaryOnly
          s).2).1
      = (nearbySearchRun withinR provider lat lng radiusMeters placeTypes primaryOnly
          s).1 := by
  refine ⟨?_, rfl, rfl, rfl⟩
  show s.providerCalls + 5 + 5 = s.providerCalls + 10
  omega

/-- C2 amended: `getLocationIntelligence` never writes the durable tier (nor
the memory tier): after every run, both cache tiers are exactly what they
were before the run. -/
theorem getLocationIntelligence_no_durable_write (withinR : ℚ → ℚ → Bool)
    (provider : ZoneQuery → FetchOutcome) (lat lng radiusMeters : ℚ)
    (s : SessionState) :
    ((getLocationIntelligenceRun withinR provider lat lng radiusMeters s).2).localStorage
      = s.localStorage
    ∧ ((getLocationIntelligenceRun withinR provider lat lng radiusMeters s).2).memoryCache
      = s.memoryCache :=
  ⟨rfl, rfl⟩

/-- C2 counterexample: after a successful `getLocationIntelligence` run from
a fresh session, the durable tier is still empty — no aggregated entry was
written under the ward-level key (or any key), and a durable read at the
ward key misses. -/
theorem getLocationIntelligence_writes_nothing_counterexample :
    ((getLocationIntelligenceRun withinAll c1Provider 13 77.5 1000
        emptySession).2).localStorage = []
    ∧ getLocalStorageCache 0 "geo_intel_v1_13.000_77.500_1000"
        (((getLocationIntelligenceRun withinAll c1Provider 13 77.5 1000
          emptySession).2).localStorage)
      = (none, []) :=
  ⟨rfl, rfl⟩

-- ── C6: LRU eviction of the memory tier ─────────────────────────────────────

lemma oldestStep_le {α : Type} (a : String × ℕ) (p : String × MemoryCacheEntry α) :
    ∃ b, oldestStep (some a) p = some b ∧ b.2 ≤ a.2 ∧ b.2 ≤ p.2.lastAccessed := by
  unfold oldestStep
  by_cases hp : p.2.lastAccessed < a.2
  · exact ⟨(p.1, p.2.lastAccessed), by simp [hp], le_of_lt hp, le_refl _⟩
  · exact ⟨a, by simp [hp], le_refl _, not_lt.mp hp⟩

lemma oldestFold_some {α : Type} :
    ∀ (l : MapList (MemoryCacheEntry α)) (a : String × ℕ),
      ∃ r, l.foldl oldestStep (some a) = some r ∧ r.2 ≤ a.2
        ∧ ∀ p ∈ l, r.2 ≤ p.2.lastAccessed := by
  intro l
  induction l with
  | nil => exact fun a => ⟨a, rfl, le_refl _, by simp⟩
  | cons p t ih =>
    intro a
    obtain ⟨b, hb, hba, hbp⟩ := oldestStep_le a p
    obtain ⟨r, hr, hrb, hrt⟩ := ih b
    refine ⟨r, ?_, le_trans hrb hba, ?_⟩
    · simpa [List.foldl_cons, hb] using hr
    · intro q hq
      rcases List.mem_cons.mp hq with rfl | hq2
      · exact le_trans hrb hbp
      · exact hrt q hq2

lemma oldestFold_origin {α : Type} :
    ∀ (l : MapList (MemoryCacheEntry α)) (acc : Option (String × ℕ)) (r : String × ℕ),
      l.foldl oldestStep acc = some r →
      acc = some r ∨ ∃ p ∈ l, r.1 = p.1 ∧ r.2 = p.2.lastAccessed := by
  intro l
  induction l with
  | nil => exact fun acc r h => .inl h
  | cons p t ih =>
    intro acc r h
    rcases ih (oldestStep acc p) r (by simpa using h) with hacc | ⟨q, hq, hq1, hq2⟩
    · cases acc with
      | none =>
        have hr2 : (p.1, p.2.lastAccessed) = r := by simpa [oldestStep] using hacc
        exact .inr ⟨p, List.mem_cons_self p t, by rw [← hr2], by rw [← hr2]⟩
      | some a =>
        by_cases hlt : p.2.lastAccessed < a.2
        · have : (p.1, p.2.lastAccessed) = r := by
            simpa [oldestStep, hlt] using hacc
          exact .inr ⟨p, List.mem_cons_self p t, by simp [← this], by simp [← this]⟩
        · have : a = r := by simpa [oldestStep, hlt] using hacc
          exact .inl (by rw [this])
    · exact .inr ⟨q, List.mem_cons_of_mem _ hq, hq1, hq2⟩

lemma oldestAccessed_key {α : Type} (m : MapList (MemoryCacheEntry α)) (k : String)
    (e : MemoryCacheEntry α) (hmem : (k, e) ∈ m)
    (hmin : ∀ p ∈ m, p.1 ≠ k → e.lastAccessed < p.2.lastAccessed) :
    ∃ r, oldestAccessed m = some r ∧ r.1 = k := by
  cases m with
  | nil => simp at hmem
  | cons p t =>
    obtain ⟨r, hr, hra, hrall⟩ := oldestFold_some t (p.1, p.2.lastAccessed)
    have hfold : oldestAccessed (p :: t) = some r := by
      simpa [oldestAccessed, List.foldl_cons, oldestStep] using hr
    have hrle : ∀ q ∈ p :: t, r.2 ≤ q.2.lastAccessed := by
      intro q hq
      rcases List.mem_cons.mp hq with rfl | hq2
      · exact hra
      · exact hrall q hq2
    have horigin : ∃ q ∈ p :: t, r.1 = q.1 ∧ r.2 = q.2.lastAccessed := by
      rcases oldestFold_origin t (some (p.1, p.2.lastAccessed)) r hr with heq | hq
      · exact ⟨p, List.mem_cons_self p t, by simp [← Option.some.inj heq],
          by simp [← Option.some.inj heq]⟩
      · obtain ⟨q, hq, h1, h2⟩ := hq
        exact ⟨q, List.mem_cons_of_mem _ hq, h1, h2⟩
    obtain ⟨q, hqmem, hq1, hq2⟩ := horigin
    refine ⟨r, hfold, ?_⟩
    by_cases hqk : q.1 = k
    · rw [hq1, hqk]
    · exfalso
      have h1 : e.lastAccessed < q.2.lastAccessed := hmin q hqmem hqk
      have h2 : r.2 ≤ e.lastAccessed := hrle (k, e) hmem
      omega

lemma evictMemory_eq_delete {α : Type} (m : MapList (MemoryCacheEntry α)) (k : String)
    (e : MemoryCacheEntry α) (hsize : m.length = MEMORY_MAX_ENTRIES)
    (hmem : (k, e) ∈ m)
    (hmin : ∀ p ∈ m, p.1 ≠ k → e.lastAccessed < p.2.lastAccessed) :
    evictMemoryIfNeeded m = mapDelete k m := by
  obtain ⟨r, hr, hrk⟩ := oldestAccessed_key m k e hmem hmin
  unfold evictMemoryIfNeeded
  rw [hsize, if_neg (lt_irrefl _), hr]
  show mapDelete r.1 m = mapDelete k m
  rw [hrk]

/-- C6: when the memory cache is at capacity (`MEMORY_MAX_ENTRIES` live
entries), `setMemoryCache` first evicts exactly the entry with the strictly
oldest `lastAccessed` — whatever its insertion position or expiry — and then
appends the new entry with `expiresAt = now + MEMORY_TTL_MS` and
`lastAccessed = now`.  Because `getMemoryCache` refreshes `lastAccessed` on
a hit, a prior read counts as an access. -/
theorem setMemoryCache_evicts_lru {α : Type} (m : MapList (MemoryCacheEntry α))
    (k : String) (e : MemoryCacheEntry α) (newKey : String) (data : α) (now : ℕ)
    (hsize : m.length = MEMORY_MAX_ENTRIES)
    (hmem : (k, e) ∈ m)
    (hmin : ∀ p ∈ m, p.1 ≠ k → e.lastAccessed < p.2.lastAccessed)
    (hnew : ∀ p ∈ m, p.1 ≠ newKey) :
    setMemoryCache now newKey data m
      = mapDelete k m ++ [(newKey, ⟨data, now + MEMORY_TTL_MS, now⟩)] := by
  unfold setMemoryCache
  rw [evictMemory_eq_delete m k e hsize hmem hmin]
  have habs : (mapDelete k m).any (fun p => p.1 == newKey) = false := by
    rw [List.any_eq_false]
    intro x hx
    have hxm : x ∈ m := List.mem_of_mem_filter hx
    simp [hnew x hxm]
  simp [mapSet, habs]

/-- The concrete LRU scenario of the claim: 50 distinct keys "0" … "49" inserted
at times 0 … 49, then key "0" is touched by a read at time 100, then an
overflow key "50" is inserted at time 200. -/
def c6Cache0 : MapList (MemoryCacheEntry ℕ) :=
  (List.range MEMORY_MAX_ENTRIES).foldl
    (fun m i => setMemoryCache i (toString i) i m) []

def c6Cache1 : MapList (MemoryCacheEntry ℕ) := (getMemoryCache 100 "0" c6Cache0).2

set_option maxRecDepth 100000 in
theorem setMemoryCache_evicts_lru_witness :
    setMemoryCache 200 "50" 50 c6Cache1
      = mapDelete "1" c6Cache1 ++ [("50", ⟨50, 200 + MEMORY_TTL_MS, 200⟩)] :=
  setMemoryCache_evicts_lru c6Cache1 "1" ⟨1, 1 + MEMORY_TTL_MS, 1⟩ "50" 50 200
    (by decide) (by decide) (by decide) (by decide)

end Geo
